import Mathlib

set_option maxRecDepth 8192

/-!
Verification development for the JobInsight-Ai resume/job analysis pipeline.

The definitions below are a shallow embedding of the text-processing and
orchestration logic of the repository:

* `src/lib/supabase.ts` — the Gemini call sites `getSalaryTrendsFromGemini`,
  `getLearningRecommendationsFromGemini` and `analyzeResumeJobMatch`,
  including their JSON-substring extraction, fallback data and the
  message-substring based error dispatch.
* `src/components/ResumeUpload.tsx` — `handleFileChange`: file validation,
  the three cascading PDF text heuristics, and the minimum-length floor.
* `src/components/JobDescriptionInput.tsx` — the text windowing logic of
  `handleExtractFromUrl`, and the `AnalysisResults` one-shot save effect.
* The dashboard page — `saveToHistory` and `handleViewHistory` over the
  per-user history list.

Strings are modelled as Lean `String` (a list of characters); the JS regex
operations used by the source are implemented directly as recursive
functions on `List Char` with the same matching semantics.  `JSON.parse`
together with the subsequent structural use of the decoded value is a
platform primitive, not repository code, and is abstracted as a
`String → Option _` decoding parameter.  Network outcomes are an explicit
`ApiOutcome` datatype carrying the data that flows into error messages.
-/

/-- Whitespace class of the JS regexes (`\s`) restricted to ASCII. -/
def jsIsSpace (c : Char) : Bool :=
  c = ' ' || c = '\t' || c = '\n' || c = '\r' || c = '\x0b' || c = '\x0c'

/-- `replace(/\s+/g, ' ')`: collapse every maximal whitespace run to one space.
The flag records whether the previous character was part of a run. -/
def collapseRuns : Bool → List Char → List Char
  | _, [] => []
  | prevSpace, c :: rest =>
    if jsIsSpace c then
      if prevSpace then collapseRuns true rest
      else ' ' :: collapseRuns true rest
    else c :: collapseRuns false rest

/-- `String.prototype.trim()` on the ASCII whitespace class. -/
def trimChars (cs : List Char) : List Char :=
  ((cs.dropWhile jsIsSpace).reverse.dropWhile jsIsSpace).reverse

/-- Trim of a `String` (used for the 50-character input validation). -/
def jsTrim (s : String) : String := ⟨trimChars s.data⟩

/-- Does `l` start with `p`? -/
def startsWithChars : List Char → List Char → Bool
  | _, [] => true
  | [], _ :: _ => false
  | c :: cs, p :: ps => c == p && startsWithChars cs ps

/-- `String.prototype.includes`: does `hay` contain `needle` as a substring? -/
def containsChars : List Char → List Char → Bool
  | [], needle => needle.isEmpty
  | c :: rest, needle => startsWithChars (c :: rest) needle || containsChars rest needle

/-- Substring containment on `String` (JS `includes`). -/
def containsStr (hay needle : String) : Bool := containsChars hay.data needle.data

/-- ASCII lower-casing, the case folding relevant to the `/i` regex flags here. -/
def lowerAscii (c : Char) : Char :=
  if 'A' ≤ c ∧ c ≤ 'Z' then Char.ofNat (c.toNat + 32) else c

/-- `text.match(/\{[\s\S]*\}/)` (and the `[...]` variant): the greedy match
runs from the first `open` delimiter to the last `close` delimiter, provided
the latter comes after the former; otherwise there is no match. -/
def matchDelimited (openc closec : Char) (cs : List Char) : Option (List Char) :=
  match cs.dropWhile (fun c => c != openc) with
  | [] => none
  | c :: rest =>
    match (c :: rest).reverse.dropWhile (fun d => d != closec) with
    | [] => none
    | r => some r.reverse

/-- In both array call sites: `jsonMatch ? jsonMatch[0] : responseText` with
the `/\[[\s\S]*\]/` regex. -/
def jsonArrayCandidate (t : String) : String :=
  ((matchDelimited '[' ']' t.data).map String.mk).getD t

/-- In `analyzeResumeJobMatch`: `jsonMatch ? jsonMatch[0] : responseText`
with the `/\x7b[\s\S]*\x7d/` regex. -/
def jsonObjectCandidate (t : String) : String :=
  ((matchDelimited '\x7b' '\x7d' t.data).map String.mk).getD t

/-! ## Data model of `src/lib/supabase.ts` -/

structure SalaryTrend where
  role : String
  salaryInINR : String
  growth : String
deriving DecidableEq

structure SkillRecommendation where
  title : String
  type : String
  provider : String
  duration : String
  priority : String
  url : String
deriving DecidableEq

structure SkillMatch where
  matched : List String
  missing : List String
  overallMatchPercentage : Nat
deriving DecidableEq

structure SkillGap where
  skill : String
  current : Nat
  required : Nat
deriving DecidableEq

structure IndustryDemand where
  skill : String
  demandLevel : String
  growthTrend : String
deriving DecidableEq

structure PersonalityFit where
  trait : String
  matchScore : Nat
  jobRequirement : String
deriving DecidableEq

structure CareerPathSuggestion where
  role : String
  timeframe : String
  potentialSalary : String
  requiredSkills : List String
deriving DecidableEq

structure ComprehensiveAnalysis where
  skillMatch : SkillMatch
  skillGapData : List SkillGap
  recommendations : List SkillRecommendation
  industryDemand : List IndustryDemand
  personalityFit : List PersonalityFit
  careerPathSuggestions : List CareerPathSuggestion
  strengths : List String
  weaknesses : List String
  competitiveAdvantage : String
  matchScoreReasoning : Option String
deriving DecidableEq

/-- Outcome of the single `fetch` to the Gemini endpoint, as distinguished by
`callGeminiAPI`: missing key, rejected fetch (platform-dependent message),
non-2xx response (status and statusText flow into the message), a 2xx body
carrying an `error` field, a 2xx body without the expected candidate
structure, or the first candidate text. -/
inductive ApiOutcome where
  | success (text : String)
  | keyMissing
  | networkFailure (msg : String)
  | httpError (status : Nat) (statusText : String)
  | bodyError (msg : String)
  | envelopeError
deriving DecidableEq

/-- `callGeminiAPI`: either the reply text or the thrown error message,
with the messages built exactly as in the source. -/
def callGeminiAPI : ApiOutcome → Except String String
  | .success t => .ok t
  | .keyMissing => .error "Gemini API key is not configured"
  | .networkFailure msg => .error msg
  | .httpError status statusText =>
      .error ("API error: " ++ Nat.repr status ++ " " ++ statusText)
  | .bodyError msg =>
      .error (if msg = "" then "Failed to get response from Gemini" else msg)
  | .envelopeError => .error "Invalid response format from Gemini API"

/-- Hardcoded fallback of `getSalaryTrendsFromGemini`. -/
def salaryTrendsFallback : List SalaryTrend :=
  [ { role := "Full Stack Developer", salaryInINR := "₹8,00,000 - ₹15,00,000", growth := "↗ 18%" },
    { role := "DevOps Engineer", salaryInINR := "₹12,00,000 - ₹22,00,000", growth := "↗ 25%" },
    { role := "Data Scientist", salaryInINR := "₹10,00,000 - ₹20,00,000", growth := "↗ 20%" } ]

/-- Hardcoded fallback of `getLearningRecommendationsFromGemini`. -/
def learningRecommendationsFallback : List SkillRecommendation :=
  [ { title := "AWS Solutions Architect Associate", type := "Certification", provider := "AWS",
      duration := "3-4 weeks", priority := "High",
      url := "https://aws.amazon.com/certification/certified-solutions-architect-associate/" },
    { title := "Full Stack Web Development", type := "Course", provider := "Coursera",
      duration := "6 months", priority := "High",
      url := "https://www.coursera.org/specializations/full-stack-react" },
    { title := "Python for Data Science", type := "Course", provider := "edX",
      duration := "8 weeks", priority := "Medium",
      url := "https://www.edx.org/course/python-for-data-science" } ]

/-- `getSalaryTrendsFromGemini`.  `decodeTrends` abstracts `JSON.parse` plus
the use of the result as an array of trend objects; it returns `none` when
`JSON.parse` throws or the value does not support `slice` (either way the
inner catch throws, and the outer catch returns the fallback). -/
def getSalaryTrendsFromGemini
    (decodeTrends : String → Option (List SalaryTrend)) (api : ApiOutcome) :
    List SalaryTrend :=
  match callGeminiAPI api with
  | .error _ => salaryTrendsFallback
  | .ok responseText =>
    match decodeTrends (jsonArrayCandidate responseText) with
    | some trends => trends.take 3
    | none => salaryTrendsFallback

/-- `getLearningRecommendationsFromGemini`, same shape as the salary call. -/
def getLearningRecommendationsFromGemini
    (decodeRecs : String → Option (List SkillRecommendation)) (api : ApiOutcome) :
    List SkillRecommendation :=
  match callGeminiAPI api with
  | .error _ => learningRecommendationsFallback
  | .ok responseText =>
    match decodeRecs (jsonArrayCandidate responseText) with
    | some recommendations => recommendations.take 3
    | none => learningRecommendationsFallback

def resumeTooShortMsg : String :=
  "Resume text is too short for accurate analysis. Please provide a more detailed resume."

def jobDescTooShortMsg : String :=
  "Job description is too short for accurate analysis. Please provide a more detailed job description."

def parseAnalysisFailedMsg : String := "Failed to parse resume analysis data"

/-- The post-decode fixup of `analyzeResumeJobMatch`: when `skillGapData` is
nonempty, default every falsy (empty) skill name to `"Unknown Skill"`. -/
def fixSkillGapNames (a : ComprehensiveAnalysis) : ComprehensiveAnalysis :=
  if 0 < a.skillGapData.length then
    { a with skillGapData :=
        a.skillGapData.map (fun item =>
          { item with skill := if item.skill = "" then "Unknown Skill" else item.skill }) }
  else a

/-- Hardcoded fallback analysis returned by the outer catch of
`analyzeResumeJobMatch` (source lines 419-509). -/
def fallbackAnalysis : ComprehensiveAnalysis :=
  { skillMatch :=
      { matched :=
          [ "Problem-solving abilities", "Basic programming knowledge", "Communication skills",
            "Team collaboration", "Technical aptitude" ],
        missing :=
          [ "Advanced JavaScript frameworks", "Cloud computing experience",
            "System design knowledge", "DevOps practices", "Database optimization" ],
        overallMatchPercentage := 65 },
    skillGapData :=
      [ { skill := "JavaScript/React", current := 60, required := 85 },
        { skill := "Node.js/Backend", current := 45, required := 80 },
        { skill := "AWS/Cloud", current := 25, required := 75 },
        { skill := "Database Management", current := 55, required := 70 },
        { skill := "DevOps/CI-CD", current := 20, required := 65 },
        { skill := "System Design", current := 30, required := 75 },
        { skill := "API Development", current := 50, required := 80 } ],
    recommendations :=
      [ { title := "React.js Complete Guide", type := "Course", provider := "Udemy",
          duration := "40 hours", priority := "High",
          url := "https://www.udemy.com/course/react-the-complete-guide-incl-redux/" },
        { title := "AWS Certified Developer", type := "Certification", provider := "AWS",
          duration := "8 weeks", priority := "High",
          url := "https://aws.amazon.com/certification/certified-developer-associate/" },
        { title := "System Design Interview", type := "Course", provider := "Educative",
          duration := "6 weeks", priority := "Medium",
          url := "https://www.educative.io/courses/grokking-the-system-design-interview" } ],
    industryDemand :=
      [ { skill := "React.js", demandLevel := "Very High", growthTrend := "Rapidly Growing" },
        { skill := "Node.js", demandLevel := "High", growthTrend := "Growing" },
        { skill := "AWS", demandLevel := "Very High", growthTrend := "Rapidly Growing" },
        { skill := "Python", demandLevel := "High", growthTrend := "Growing" },
        { skill := "DevOps", demandLevel := "Very High", growthTrend := "Rapidly Growing" } ],
    personalityFit :=
      [ { trait := "Technical Communication", matchScore := 70,
          jobRequirement := "Clear technical documentation and code reviews" },
        { trait := "Team Collaboration", matchScore := 75,
          jobRequirement := "Agile development and cross-functional teamwork" },
        { trait := "Continuous Learning", matchScore := 80,
          jobRequirement := "Staying updated with latest technologies and best practices" } ],
    careerPathSuggestions :=
      [ { role := "Senior Full Stack Developer", timeframe := "2-3 years",
          potentialSalary := "₹12,00,000 - ₹20,00,000",
          requiredSkills :=
            [ "Advanced React", "System Architecture", "Team Leadership",
              "Performance Optimization" ] },
        { role := "Technical Lead", timeframe := "4-5 years",
          potentialSalary := "₹20,00,000 - ₹35,00,000",
          requiredSkills :=
            [ "System Design", "Team Management", "Product Strategy", "Mentoring" ] } ],
    strengths :=
      [ "Solid foundation in core programming concepts and problem-solving",
        "Good communication skills suitable for Indian corporate environment",
        "Adaptability and willingness to learn new technologies" ],
    weaknesses :=
      [ "Limited experience with modern JavaScript frameworks and cloud technologies",
        "Needs improvement in system design and scalability concepts" ],
    competitiveAdvantage :=
      "Strong fundamentals with good learning potential for the rapidly growing Indian tech market",
    matchScoreReasoning :=
      some "Provide a brief and precise explanation (1-2 sentences) for the overall match percentage, focusing on the most significant matching strengths and missing skills." }

/-- The body of the outer `try` of `analyzeResumeJobMatch`: validation,
the Gemini call, JSON-substring extraction and decoding, expressed as the
thrown message or the returned analysis. -/
def analyzeResumeJobMatchCore
    (decodeAnalysis : String → Option ComprehensiveAnalysis)
    (resumeText jobDescription : String) (api : ApiOutcome) :
    Except String ComprehensiveAnalysis :=
  if (jsTrim resumeText).length < 50 then .error resumeTooShortMsg
  else if (jsTrim jobDescription).length < 50 then .error jobDescTooShortMsg
  else
    match callGeminiAPI api with
    | .error msg => .error msg
    | .ok responseText =>
      match decodeAnalysis (jsonObjectCandidate responseText) with
      | some analysis => .ok (fixSkillGapNames analysis)
      | none => .error parseAnalysisFailedMsg

/-- `analyzeResumeJobMatch`: the outer catch re-throws exactly the errors
whose message contains the substring of the validation messages
(`error.message.includes` of a fixed text) and masks every other error with
the hardcoded fallback analysis. -/
def analyzeResumeJobMatch
    (decodeAnalysis : String → Option ComprehensiveAnalysis)
    (resumeText jobDescription : String) (api : ApiOutcome) :
    Except String ComprehensiveAnalysis :=
  match analyzeResumeJobMatchCore decodeAnalysis resumeText jobDescription api with
  | .ok analysis => .ok analysis
  | .error msg =>
      if containsStr msg "too short" then .error msg else .ok fallbackAnalysis

/-! ## The URL extraction windowing of `JobDescriptionInput.tsx` -/

/-- Line 62: `extractedText.replace(/\s+/g, ' ').trim()` applied to the text
content of the selected main-content node. -/
def collapsedTrimmed (raw : String) : String := ⟨trimChars (collapseRuns false raw.data)⟩

def phraseJobDescription : List Char := "job description".data
def phraseRequirements : List Char := "requirements".data
def phraseResponsibilities : List Char := "responsibilities".data

/-- Index of the leftmost position where one of the three phrases of
`/job description|requirements|responsibilities/i` matches. -/
def findPhraseIdxCore : List Char → Option Nat
  | [] => none
  | c :: rest =>
    if startsWithChars (c :: rest) phraseJobDescription ||
       startsWithChars (c :: rest) phraseRequirements ||
       startsWithChars (c :: rest) phraseResponsibilities then some 0
    else (findPhraseIdxCore rest).map Nat.succ

/-- `extractedText.match(/job description|requirements|responsibilities/i)`:
the `.index` of the match, or `none` when there is no match. -/
def findPhraseIndex (t : String) : Option Nat := findPhraseIdxCore (t.data.map lowerAscii)

/-- `substring(i, i + len)` (clamped at the end of the string, as in JS). -/
def substrWindow (t : String) (i len : Nat) : String := ⟨(t.data.drop i).take len⟩

/-- The `else if (extractedText.length > 5000)` truncation branch. -/
def truncText (t : String) : String :=
  if 5000 < t.length then ⟨t.data.take 5000 ++ "...".data⟩ else t

/-- Lines 60-74 of `handleExtractFromUrl`: whitespace collapsing followed by
the windowing decision.  The window branch is guarded by the truthiness of
`jobDescriptionMatches.index`, i.e. it requires a nonzero match index. -/
def extractFromUrlText (raw : String) : String :=
  let t := collapsedTrimmed raw
  match findPhraseIndex t with
  | some i => if i ≠ 0 then substrWindow t i 4000 else truncText t
  | none => truncText t

/-! ## The file upload and extraction of `ResumeUpload.tsx` -/

/-- All non-overlapping matches of `/\(([^\)]+)\)/g`: a literal `(`, one or
more non-`)` characters, then `)`.  On a failed attempt the regex engine
advances one position.  Fuel bounds the recursion by the input length. -/
def parenTokenScan : Nat → List Char → List (List Char)
  | 0, _ => []
  | _, [] => []
  | Nat.succ fuel, c :: rest =>
    if c = '(' then
      let inner := rest.takeWhile (fun d => d != ')')
      match rest.dropWhile (fun d => d != ')') with
      | ')' :: rest2 =>
        if inner.isEmpty then parenTokenScan fuel rest
        else ('(' :: (inner ++ [')'])) :: parenTokenScan fuel rest2
      | _ => parenTokenScan fuel rest
    else parenTokenScan fuel rest

/-- `replace(/\\n|\\r/g, ' ')`: each two-character sequence backslash-`n` or
backslash-`r` becomes a single space. -/
def replaceEscapedBreaks : List Char → List Char
  | '\\' :: 'n' :: rest => ' ' :: replaceEscapedBreaks rest
  | '\\' :: 'r' :: rest => ' ' :: replaceEscapedBreaks rest
  | c :: rest => c :: replaceEscapedBreaks rest
  | [] => []

/-- First PDF heuristic (lines 57-64): join the parenthesis tokens with
spaces, blank out parentheses and escaped line breaks, collapse whitespace.
When the regex finds no match, `text` keeps its initial empty value. -/
def parensHeuristicCore (cs : List Char) : List Char :=
  let ms := parenTokenScan cs.length cs
  if ms.isEmpty then []
  else
    collapseRuns false
      (replaceEscapedBreaks
        ((List.intercalate [' '] ms).map
          (fun c => if c = '(' ∨ c = ')' then ' ' else c)))

def parensHeuristic (content : String) : String := ⟨parensHeuristicCore content.data⟩

/-- One attempt of `/\/Text\s*\[(.*?)\]/` at the head of `l`: the literal
`/Text`, any whitespace, `[`, then a lazy run of non-newline characters up
to the first `]`.  Returns the matched token and the remaining input. -/
def matchTextToken (l : List Char) : Option (List Char × List Char) :=
  if startsWithChars l ['/', 'T', 'e', 'x', 't'] then
    let afterT := l.drop 5
    let ws := afterT.takeWhile jsIsSpace
    match afterT.dropWhile jsIsSpace with
    | '[' :: rest =>
      let inner := rest.takeWhile (fun c => c != ']' && c != '\n' && c != '\r')
      match rest.dropWhile (fun c => c != ']' && c != '\n' && c != '\r') with
      | ']' :: rest2 =>
        some ('/' :: 'T' :: 'e' :: 'x' :: 't' :: (ws ++ '[' :: (inner ++ [']'])), rest2)
      | _ => none
    | _ => none
  else none

/-- All non-overlapping matches of `/\/Text\s*\[(.*?)\]/g`. -/
def textArrayScan : Nat → List Char → List (List Char)
  | 0, _ => []
  | _, [] => []
  | Nat.succ fuel, c :: rest =>
    match matchTextToken (c :: rest) with
    | some (tok, rest2) => tok :: textArrayScan fuel rest2
    | none => textArrayScan fuel rest

/-- `replace(/\/Text\s*\[/g, '')`: strip each `/Text`-whitespace-`[` opener. -/
def stripTextOpeners : Nat → List Char → List Char
  | 0, l => l
  | _, [] => []
  | Nat.succ fuel, c :: rest =>
    if startsWithChars (c :: rest) ['/', 'T', 'e', 'x', 't'] then
      match ((c :: rest).drop 5).dropWhile jsIsSpace with
      | '[' :: rest2 => stripTextOpeners fuel rest2
      | _ => c :: stripTextOpeners fuel rest
    else c :: stripTextOpeners fuel rest

/-- Second PDF heuristic (lines 67-76): when `/\/Text\s*\[(.*?)\]/g` has
matches, join them with spaces and strip the markers; otherwise `text` is
left as produced by the first heuristic (`none` here). -/
def textArrayHeuristicCore (cs : List Char) : Option (List Char) :=
  let ms := textArrayScan cs.length cs
  if ms.isEmpty then none
  else
    let joined := List.intercalate [' '] ms
    let s1 := stripTextOpeners joined.length joined
    some ((s1.filter (fun c => c != ']')).map
      (fun c => if c = '(' ∨ c = ')' then ' ' else c))

def textArrayHeuristic (content : String) : Option String :=
  (textArrayHeuristicCore content.data).map String.mk

/-- `content.split(' ')` (single-space separator, keeping empty fields). -/
def splitOnSpace (cur : List Char) : List Char → List (List Char)
  | [] => [cur.reverse]
  | c :: rest =>
    if c = ' ' then cur.reverse :: splitOnSpace [] rest
    else splitOnSpace (c :: cur) rest

/-- Third PDF heuristic (lines 79-87): blank out every character outside
`\x20`-`\x7E`, keep the words longer than two characters, re-join, collapse
whitespace and trim. -/
def printableHeuristicCore (cs : List Char) : List Char :=
  let mapped := cs.map (fun c => if c.toNat < 0x20 ∨ 0x7E < c.toNat then ' ' else c)
  let kept := (splitOnSpace [] mapped).filter (fun w => 2 < w.length)
  trimChars (collapseRuns false (List.intercalate [' '] kept))

def printableHeuristic (content : String) : String := ⟨printableHeuristicCore content.data⟩

/-- The full PDF branch of `handleFileChange`: the three heuristics in
order, each later one entered only while `text.length < 100`. -/
def pdfExtractText (content : String) : String :=
  let t1 := parensHeuristicCore content.data
  let t2 :=
    if t1.length < 100 then
      match textArrayHeuristicCore content.data with
      | some t => t
      | none => t1
    else t1
  ⟨if t2.length < 100 then printableHeuristicCore content.data else t2⟩

/-- A selected file: declared media type, byte size, and its decoded
content (`text()` for plain text, the UTF-8 decoded bytes for PDF). -/
structure SelectedFile where
  name : String
  type : String
  size : Nat
  content : String
deriving DecidableEq

def validTypes : List String :=
  [ "application/pdf", "application/msword",
    "application/vnd.openxmlformats-officedocument.wordprocessingml.document",
    "text/plain" ]

/-- Placeholder used for Word documents (no real extraction). -/
def wordPlaceholder (name : String) : String :=
  name ++ " - Resume includes professional experience spanning multiple years in technology roles, with skills in programming languages, databases, and web frameworks. Education includes degree in computer science or related field."

/-- Suffix of the minimum-quality floor sentence (line 102). -/
def fallbackFloorSuffix : String :=
  " - Resume includes professional background in technology with various technical skills and educational qualifications."

/-- The generic templated sentence substituted for any extraction result
under 50 characters. -/
def fallbackFloor (name : String) : String := name ++ fallbackFloorSuffix

/-- The text produced by the per-type extraction steps, before the floor. -/
def extractedTextOf (f : SelectedFile) : String :=
  if f.type = "text/plain" then f.content
  else if f.type = "application/pdf" then pdfExtractText f.content
  else wordPlaceholder f.name

/-- `handleFileChange`: type allow-list, 5 MiB size limit, extraction, and
the 50-character floor.  `none` means the upload was rejected and
`onUpload` never ran; `some t` means `onUpload(true, t)` was called. -/
def handleFileChange (f : SelectedFile) : Option String :=
  if !(validTypes.contains f.type) then none
  else if 5 * 1024 * 1024 < f.size then none
  else
    some (if (extractedTextOf f).length < 50 then fallbackFloor f.name
          else extractedTextOf f)

/-! ## The dashboard history store and the one-shot save effect -/

structure AnalysisHistoryItem where
  id : String
  date : String
  matchPercentage : Nat
  jobTitle : Option String
  resumeText : Option String
  jobDescription : Option String
deriving DecidableEq

structure DashboardState where
  user : Bool
  hasBeenSaved : Bool
  analysisHistory : List AnalysisHistoryItem
  resumeText : String
  jobDescription : String
  resumeUploaded : Bool
  showResults : Bool
  selectedHistoryItem : Option AnalysisHistoryItem
deriving DecidableEq

/-- `jobDescription.split('\n')[0]`. -/
def firstLine (s : String) : String := ⟨s.data.takeWhile (fun c => c != '\n')⟩

/-- `jobDescription.split('\n')[0] || "Untitled Position"`. -/
def jobTitleOf (jd : String) : String :=
  if firstLine jd = "" then "Untitled Position" else firstLine jd

/-- `saveToHistory` of the dashboard: guarded by the signed-in user and the
`hasBeenSaved` flag, it prepends a record built from the current text
buffers and arms the flag.  `newId`/`newDate` stand for `Date.now()` and
`toLocaleDateString()`. -/
def saveToHistory (s : DashboardState) (matchPercentage : Nat) (newId newDate : String) :
    DashboardState :=
  if !s.user || s.hasBeenSaved then s
  else
    let newItem : AnalysisHistoryItem :=
      { id := newId, date := newDate, matchPercentage := matchPercentage,
        jobTitle := some (jobTitleOf s.jobDescription),
        resumeText := some s.resumeText, jobDescription := some s.jobDescription }
    { s with analysisHistory := newItem :: s.analysisHistory, hasBeenSaved := true }

/-- `handleViewHistory`: select the item and, when both stored texts are
truthy (present and nonempty), repopulate the buffers and show results.
Note it does not touch `hasBeenSaved`. -/
def handleViewHistory (s : DashboardState) (item : AnalysisHistoryItem) : DashboardState :=
  let s1 := { s with selectedHistoryItem := some item }
  match item.resumeText, item.jobDescription with
  | some r, some j =>
    if r != "" && j != "" then
      { s1 with
        resumeText := r, jobDescription := j
        resumeUploaded := true, showResults := true }
    else s1
  | _, _ => s1

/-- State visible to the save effect of `AnalysisResults`: the `hasSaved`
ref (false on every fresh mount) plus the dashboard state reached through
the `onSaveAnalysis` callback. -/
structure ResultsState where
  hasSavedRef : Bool
  dash : DashboardState
deriving DecidableEq

/-- One evaluation of the save effect (lines 298-303): when the analysis is
resolved without error and the ref is unset, call `onSaveAnalysis` (i.e.
`saveToHistory`) and set the ref. -/
def saveEffect (rs : ResultsState) (analysisOk : Bool) (pct : Nat) (newId newDate : String) :
    ResultsState :=
  if analysisOk && !rs.hasSavedRef then
    { hasSavedRef := true, dash := saveToHistory rs.dash pct newId newDate }
  else rs

/-- A sequence of further effect evaluations (re-renders), each with its own
analysis status and save arguments. -/
def applyEffects (rs : ResultsState) : List (Bool × Nat × String × String) → ResultsState
  | [] => rs
  | (ok, pct, i, d) :: rest => applyEffects (saveEffect rs ok pct i d) rest

/-! ## Concrete sample inputs used by counterexamples and witnesses -/

def sampleResume : String :=
  "Experienced full stack engineer with Python, SQL and React skills over six years."

def sampleJobDesc : String :=
  "Looking for a backend developer with Node.js, PostgreSQL and cloud deployment experience."

/-- 4001 characters starting with a keyword match at index 0. -/
def urlCexText : String := ⟨"requirements".data ++ List.replicate 3989 'a'⟩

/-- A page text whose keyword match sits at a positive index (9). -/
def urlWitnessRaw : String :=
  "We hire. Requirements include testing and TypeScript skills for this role."

/-- PDF-like content whose parenthesis heuristic already yields 122 characters. -/
def pdfParensRich : String := ⟨'(' :: (List.replicate 120 'a' ++ [')'])⟩

def sampleTxtFile : SelectedFile :=
  { name := "resume.txt", type := "text/plain", size := 2048, content := sampleResume }

def samplePngFile : SelectedFile :=
  { name := "photo.png", type := "image/png", size := 2048, content := "" }

def sampleShortTxtFile : SelectedFile :=
  { name := "tiny.txt", type := "text/plain", size := 10, content := "short" }

def historyItemSample : AnalysisHistoryItem :=
  { id := "1700000000000", date := "1/1/2025", matchPercentage := 65,
    jobTitle := some "Senior Software Engineer role",
    resumeText := some sampleResume, jobDescription := some sampleJobDesc }

/-- Dashboard state of a fresh signed-in session right after the history
list was loaded from local storage. -/
def dashAfterLoad : DashboardState :=
  { user := true, hasBeenSaved := false, analysisHistory := [historyItemSample],
    resumeText := "", jobDescription := "", resumeUploaded := false,
    showResults := false, selectedHistoryItem := none }

/-- Dashboard state right after `handleAnalyze` succeeded its guards. -/
def dashReady : DashboardState :=
  { user := true, hasBeenSaved := false, analysisHistory := [],
    resumeText := sampleResume, jobDescription := sampleJobDesc,
    resumeUploaded := true, showResults := true, selectedHistoryItem := none }

/-- A four-element decoded array, to exercise the `slice(0, 3)` truncation. -/
def fourTrends : List SalaryTrend :=
  [ { role := "A", salaryInINR := "B", growth := "C" },
    { role := "D", salaryInINR := "E", growth := "F" },
    { role := "G", salaryInINR := "H", growth := "I" },
    { role := "J", salaryInINR := "K", growth := "L" } ]

/-! ## Theorems -/

theorem fallbackFloor_long (name : String) : 50 ≤ (fallbackFloor name).length := by
  have h : (fallbackFloor name).length = name.length + fallbackFloorSuffix.length := by
    simp [fallbackFloor, String.length_append]
  have h2 : 50 ≤ fallbackFloorSuffix.length := by decide
  omega

/-- C7: every file whose declared media type is outside the allow-list, or
whose size exceeds 5242880 bytes, is rejected: `handleFileChange` produces
no text and `onUpload` is never invoked. -/
theorem upload_rejects_invalid_files (f : SelectedFile)
    (h : validTypes.contains f.type = false ∨ 5242880 < f.size) :
    handleFileChange f = none := by
  unfold handleFileChange
  rcases h with h | h
  · rw [h]; rfl
  · cases hc : validTypes.contains f.type with
    | false => rfl
    | true =>
      have h5 : 5 * 1024 * 1024 < f.size := by omega
      simp [h5]

theorem upload_rejects_invalid_files_witness :
    (validTypes.contains samplePngFile.type = false ∨ 5242880 < samplePngFile.size) ∧
    handleFileChange samplePngFile = none :=
  ⟨Or.inl (by decide), upload_rejects_invalid_files samplePngFile (Or.inl (by decide))⟩

/-- C8: every text delivered to `onUpload` has length at least 50, and when
the extraction result is under 50 characters the delivered text is the
generic templated fallback sentence containing the file name. -/
theorem upload_text_min_length (f : SelectedFile) (t : String)
    (h : handleFileChange f = some t) :
    50 ≤ t.length ∧ ((extractedTextOf f).length < 50 → t = fallbackFloor f.name) := by
  unfold handleFileChange at h
  cases h1 : validTypes.contains f.type with
  | false => rw [h1] at h; exact absurd h (by simp)
  | true =>
    rw [h1] at h
    simp only [Bool.not_true, Bool.false_eq_true, if_false] at h
    by_cases h2 : 5 * 1024 * 1024 < f.size
    · rw [if_pos h2] at h; exact absurd h (by simp)
    · rw [if_neg h2] at h
      have h' := Option.some.inj h
      by_cases h3 : (extractedTextOf f).length < 50
      · rw [if_pos h3] at h'
        exact ⟨h' ▸ fallbackFloor_long f.name, fun _ => h'.symm⟩
      · rw [if_neg h3] at h'
        exact ⟨h' ▸ (by omega : 50 ≤ (extractedTextOf f).length), fun hlt => absurd hlt h3⟩

theorem upload_text_min_length_witness :
    handleFileChange sampleShortTxtFile = some (fallbackFloor "tiny.txt") ∧
    (extractedTextOf sampleShortTxtFile).length < 50 ∧
    50 ≤ (fallbackFloor "tiny.txt").length ∧
    fallbackFloor "tiny.txt"
      = fallbackFloor sampleShortTxtFile.name := by
  have h := upload_text_min_length sampleShortTxtFile (fallbackFloor "tiny.txt") (by decide)
  exact ⟨by decide, by decide, h.1, h.2 (by decide)⟩

/-- C9: an accepted plain-text file within the size limit whose decoded
content is at least 50 characters long is delivered to `onUpload` verbatim. -/
theorem plain_text_roundtrip (name : String) (size : Nat) (content : String)
    (hsize : size ≤ 5242880) (hlen : 50 ≤ content.length) :
    handleFileChange { name := name, type := "text/plain", size := size, content := content }
      = some content := by
  unfold handleFileChange extractedTextOf
  have h1 : validTypes.contains "text/plain" = true := by decide
  have h2 : ¬ (5 * 1024 * 1024 < size) := by omega
  have h3 : ¬ (content.length < 50) := by omega
  simp [h1, h2, h3]
  decide

theorem plain_text_roundtrip_witness :
    sampleTxtFile.size ≤ 5242880 ∧ 50 ≤ sampleTxtFile.content.length ∧
    handleFileChange sampleTxtFile = some sampleResume :=
  ⟨by decide, by decide, plain_text_roundtrip "resume.txt" 2048 sampleResume (by decide) (by decide)⟩

/-- C10: the salary-trend and learning-recommendation calls never return
more than 3 items: a successful decode is truncated with `slice(0, 3)` and
every failure yields the fixed 3-element fallback array. -/
theorem gemini_lists_at_most_three
    (decodeS : String → Option (List SalaryTrend))
    (decodeL : String → Option (List SkillRecommendation)) (api api2 : ApiOutcome) :
    (getSalaryTrendsFromGemini decodeS api).length ≤ 3 ∧
    (getLearningRecommendationsFromGemini decodeL api2).length ≤ 3 ∧
    (∀ t xs, api = .success t → decodeS (jsonArrayCandidate t) = some xs →
        getSalaryTrendsFromGemini decodeS api = xs.take 3) ∧
    (∀ t xs, api2 = .success t → decodeL (jsonArrayCandidate t) = some xs →
        getLearningRecommendationsFromGemini decodeL api2 = xs.take 3) ∧
    (∀ msg, callGeminiAPI api = .error msg →
        getSalaryTrendsFromGemini decodeS api = salaryTrendsFallback) ∧
    (∀ msg, callGeminiAPI api2 = .error msg →
        getLearningRecommendationsFromGemini decodeL api2 = learningRecommendationsFallback) := by
  refine ⟨?_, ?_, ?_, ?_, ?_, ?_⟩
  · unfold getSalaryTrendsFromGemini
    split
    · decide
    · split
      · simp [List.length_take]
      · decide
  · unfold getLearningRecommendationsFromGemini
    split
    · decide
    · split
      · simp [List.length_take]
      · decide
  · intro t xs ht hd
    subst ht
    unfold getSalaryTrendsFromGemini
    simp [callGeminiAPI, hd]
  · intro t xs ht hd
    subst ht
    unfold getLearningRecommendationsFromGemini
    simp [callGeminiAPI, hd]
  · intro msg hmsg
    unfold getSalaryTrendsFromGemini
    rw [hmsg]
  · intro msg hmsg
    unfold getLearningRecommendationsFromGemini
    rw [hmsg]

theorem gemini_lists_at_most_three_witness :
    (getSalaryTrendsFromGemini (fun _ => some fourTrends) (.success "x")).length ≤ 3 ∧
    getSalaryTrendsFromGemini (fun _ => some fourTrends) (.success "x") = fourTrends.take 3 ∧
    (getLearningRecommendationsFromGemini (fun _ => none) .envelopeError).length ≤ 3 ∧
    getLearningRecommendationsFromGemini (fun _ => none) .envelopeError
      = learningRecommendationsFallback := by
  have h := gemini_lists_at_most_three (fun _ => some fourTrends) (fun _ => none)
      (.success "x") .envelopeError
  exact ⟨h.1, h.2.2.1 "x" fourTrends rfl rfl, h.2.1,
    h.2.2.2.2.2 "Invalid response format from Gemini API" rfl⟩

theorem containsStr_resume_msg : containsStr resumeTooShortMsg "too short" = true := by decide

theorem containsStr_jd_msg : containsStr jobDescTooShortMsg "too short" = true := by decide

theorem containsStr_parse_msg : containsStr parseAnalysisFailedMsg "too short" = false := by decide

/-- C1 counterexample: with both inputs of trimmed length at least 50 and an
LLM reply whose text yields no decodable JSON object, `analyzeResumeJobMatch`
does not fail with a parse error: it returns the hardcoded substitute
analysis.  (The internal parse error message lacks the substring "too short",
so the outer catch masks it.) -/
theorem analyzeResumeJobMatch_parse_failure_masked_cex :
    50 ≤ (jsTrim sampleResume).length ∧ 50 ≤ (jsTrim sampleJobDesc).length ∧
    analyzeResumeJobMatch (fun _ => none) sampleResume sampleJobDesc (.success "hello")
      = .ok fallbackAnalysis :=
  ⟨by decide, by decide, rfl⟩

/-- C1 as amended: under a JSON parse failure with valid-length inputs,
`analyzeResumeJobMatch` returns the hardcoded fallback analysis (the parse
error is caught and masked, not surfaced), while the salary-trend and
learning-recommendation calls return their fixed 3-element fallback arrays. -/
theorem parse_failure_fallback_behavior
    (decodeA : String → Option ComprehensiveAnalysis)
    (decodeS : String → Option (List SalaryTrend))
    (decodeL : String → Option (List SkillRecommendation))
    (r j t ts tl : String)
    (hr : 50 ≤ (jsTrim r).length) (hj : 50 ≤ (jsTrim j).length)
    (ha : decodeA (jsonObjectCandidate t) = none)
    (hs : decodeS (jsonArrayCandidate ts) = none)
    (hl : decodeL (jsonArrayCandidate tl) = none) :
    analyzeResumeJobMatch decodeA r j (.success t) = .ok fallbackAnalysis ∧
    getSalaryTrendsFromGemini decodeS (.success ts) = salaryTrendsFallback ∧
    getLearningRecommendationsFromGemini decodeL (.success tl)
      = learningRecommendationsFallback ∧
    salaryTrendsFallback.length = 3 ∧ learningRecommendationsFallback.length = 3 := by
  have hr' : ¬ (jsTrim r).length < 50 := by omega
  have hj' : ¬ (jsTrim j).length < 50 := by omega
  refine ⟨?_, ?_, ?_, rfl, rfl⟩
  · unfold analyzeResumeJobMatch analyzeResumeJobMatchCore
    simp [hr', hj', callGeminiAPI, ha, containsStr_parse_msg]
  · unfold getSalaryTrendsFromGemini
    simp [callGeminiAPI, hs]
  · unfold getLearningRecommendationsFromGemini
    simp [callGeminiAPI, hl]

theorem parse_failure_fallback_behavior_witness :
    50 ≤ (jsTrim sampleResume).length ∧ 50 ≤ (jsTrim sampleJobDesc).length ∧
    analyzeResumeJobMatch (fun _ => none) sampleResume sampleJobDesc (.success "no json")
      = .ok fallbackAnalysis ∧
    getSalaryTrendsFromGemini (fun _ => none) (.success "no json") = salaryTrendsFallback ∧
    getLearningRecommendationsFromGemini (fun _ => none) (.success "no json")
      = learningRecommendationsFallback := by
  have h := parse_failure_fallback_behavior (fun _ => none) (fun _ => none) (fun _ => none)
      sampleResume sampleJobDesc "no json" "no json" "no json"
      (by decide) (by decide) rfl rfl rfl
  exact ⟨by decide, by decide, h.1, h.2.1, h.2.2.1⟩

/-- C5 counterexample: a non-2xx response is one of the failure classes the
claim says are masked, yet when its statusText makes the thrown message
contain "too short", `analyzeResumeJobMatch` re-throws it instead of
returning the fallback: the dispatch is by message substring, not by class. -/
theorem analyze_rethrow_by_substring_cex :
    50 ≤ (jsTrim sampleResume).length ∧ 50 ≤ (jsTrim sampleJobDesc).length ∧
    analyzeResumeJobMatch (fun _ => none) sampleResume sampleJobDesc
        (.httpError 413 "Payload too short")
      = .error "API error: 413 Payload too short" :=
  ⟨by decide, by decide, rfl⟩

/-- C5 as amended: "too short" validation failures are thrown to the caller;
every other failure (network error, non-2xx status, malformed envelope, JSON
parse failure) returns the hardcoded fallback analysis, provided its error
message does not itself contain the substring "too short" (the parse-failure
message never does). -/
theorem analyze_error_propagation
    (decodeA : String → Option ComprehensiveAnalysis) (r j : String) (api : ApiOutcome) :
    ((jsTrim r).length < 50 →
        analyzeResumeJobMatch decodeA r j api = .error resumeTooShortMsg) ∧
    (50 ≤ (jsTrim r).length → (jsTrim j).length < 50 →
        analyzeResumeJobMatch decodeA r j api = .error jobDescTooShortMsg) ∧
    (50 ≤ (jsTrim r).length → 50 ≤ (jsTrim j).length →
      (∀ msg, callGeminiAPI api = .error msg → containsStr msg "too short" = false →
          analyzeResumeJobMatch decodeA r j api = .ok fallbackAnalysis) ∧
      (∀ t, api = .success t → decodeA (jsonObjectCandidate t) = none →
          analyzeResumeJobMatch decodeA r j api = .ok fallbackAnalysis)) := by
  refine ⟨?_, ?_, ?_⟩
  · intro hr
    unfold analyzeResumeJobMatch analyzeResumeJobMatchCore
    simp [hr, containsStr_resume_msg]
  · intro hr hj
    have hr' : ¬ (jsTrim r).length < 50 := by omega
    unfold analyzeResumeJobMatch analyzeResumeJobMatchCore
    simp [hr', hj, containsStr_jd_msg]
  · intro hr hj
    have hr' : ¬ (jsTrim r).length < 50 := by omega
    have hj' : ¬ (jsTrim j).length < 50 := by omega
    constructor
    · intro msg hmsg hsub
      unfold analyzeResumeJobMatch analyzeResumeJobMatchCore
      simp [hr', hj', hmsg, hsub]
    · intro t ht hd
      subst ht
      unfold analyzeResumeJobMatch analyzeResumeJobMatchCore
      simp [hr', hj', callGeminiAPI, hd, containsStr_parse_msg]

theorem analyze_error_propagation_witness :
    (jsTrim "tiny").length < 50 ∧
    analyzeResumeJobMatch (fun _ => none) "tiny" sampleJobDesc .envelopeError
      = .error resumeTooShortMsg ∧
    50 ≤ (jsTrim sampleResume).length ∧ 50 ≤ (jsTrim sampleJobDesc).length ∧
    containsStr "Invalid response format from Gemini API" "too short" = false ∧
    analyzeResumeJobMatch (fun _ => none) sampleResume sampleJobDesc .envelopeError
      = .ok fallbackAnalysis := by
  have h1 := (analyze_error_propagation (fun _ => none) "tiny" sampleJobDesc
      .envelopeError).1 (by decide)
  have h2 := ((analyze_error_propagation (fun _ => none) sampleResume sampleJobDesc
      .envelopeError).2.2 (by decide) (by decide)).1
      "Invalid response format from Gemini API" rfl (by decide)
  exact ⟨by decide, h1, by decide, by decide, by decide, h2⟩

/-- C3 as amended: the windowing of `handleExtractFromUrl` characterized.
The 4000-character window applies exactly when the case-insensitive keyword
match sits at a strictly positive index (the code tests the truthiness of
`match.index`); with the match at index 0, or no match at all, the text
falls through to the 5000-character truncation rule. -/
theorem extract_url_window_rule (raw : String) :
    (∀ i, findPhraseIndex (collapsedTrimmed raw) = some i → i ≠ 0 →
        extractFromUrlText raw = substrWindow (collapsedTrimmed raw) i 4000) ∧
    (findPhraseIndex (collapsedTrimmed raw) = some 0 ∨
        findPhraseIndex (collapsedTrimmed raw) = none →
        extractFromUrlText raw = truncText (collapsedTrimmed raw)) := by
  constructor
  · intro i hi hne
    unfold extractFromUrlText
    dsimp only
    rw [hi]
    simp [hne]
  · intro h
    unfold extractFromUrlText
    dsimp only
    rcases h with h | h
    · rw [h]; simp
    · rw [h]

theorem extract_url_window_rule_witness :
    findPhraseIndex (collapsedTrimmed urlWitnessRaw) = some 9 ∧ (9 : Nat) ≠ 0 ∧
    extractFromUrlText urlWitnessRaw = substrWindow (collapsedTrimmed urlWitnessRaw) 9 4000 :=
  ⟨by decide, by decide, (extract_url_window_rule urlWitnessRaw).1 9 (by decide) (by decide)⟩

/-- C6: the PDF extraction cascade.  The first heuristic determines the text
when it yields at least 100 characters; the second heuristic is consulted
only below that bound and determines the text when its own result reaches
100 characters; otherwise the third, printable-character heuristic gives
the result. -/
theorem pdf_heuristics_cascade (content : String) :
    (100 ≤ (parensHeuristic content).length →
        pdfExtractText content = parensHeuristic content) ∧
    ((parensHeuristic content).length < 100 →
      (∀ t, textArrayHeuristic content = some t →
        (100 ≤ t.length → pdfExtractText content = t) ∧
        (t.length < 100 → pdfExtractText content = printableHeuristic content)) ∧
      (textArrayHeuristic content = none →
        pdfExtractText content = printableHeuristic content)) := by
  unfold pdfExtractText parensHeuristic textArrayHeuristic printableHeuristic
  constructor
  · intro h
    have h' : ¬ (parensHeuristicCore content.data).length < 100 := by
      simpa [String.length] using h
    simp [h']
  · intro h
    have h' : (parensHeuristicCore content.data).length < 100 := by
      simpa [String.length] using h
    constructor
    · intro t ht
      cases hc : textArrayHeuristicCore content.data with
      | none => rw [hc] at ht; exact absurd ht (by simp)
      | some l =>
        rw [hc] at ht
        have hl : t = ⟨l⟩ := by
          apply Eq.symm
          simpa using ht
        subst hl
        constructor
        · intro hlen
          have hlen' : ¬ l.length < 100 := by
            simpa [String.length] using hlen
          simp [h', hc, hlen']
        · intro hlen
          have hlen' : l.length < 100 := by
            simpa [String.length] using hlen
          simp [h', hc, hlen']
    · intro ht
      have hc : textArrayHeuristicCore content.data = none := by
        simpa using ht
      simp [h', hc]

theorem pdf_heuristics_cascade_witness :
    100 ≤ (parensHeuristic pdfParensRich).length ∧
    pdfExtractText pdfParensRich = parensHeuristic pdfParensRich :=
  ⟨by decide, (pdf_heuristics_cascade pdfParensRich).1 (by decide)⟩

theorem collapseRuns_of_no_space (l : List Char) (h : ∀ c ∈ l, jsIsSpace c = false) :
    ∀ b, collapseRuns b l = l := by
  induction l with
  | nil => intro b; rfl
  | cons c rest ih =>
    intro b
    have hc : jsIsSpace c = false := h c (List.mem_cons_self c rest)
    have hrest : ∀ d ∈ rest, jsIsSpace d = false := fun d hd => h d (List.mem_cons_of_mem c hd)
    unfold collapseRuns
    rw [hc]
    simp [ih hrest false]

theorem dropWhile_of_no_space (l : List Char) (h : ∀ c ∈ l, jsIsSpace c = false) :
    l.dropWhile jsIsSpace = l := by
  cases l with
  | nil => rfl
  | cons c rest =>
    have hc : jsIsSpace c = false := h c (List.mem_cons_self c rest)
    simp [List.dropWhile_cons, hc]

theorem trimChars_of_no_space (l : List Char) (h : ∀ c ∈ l, jsIsSpace c = false) :
    trimChars l = l := by
  unfold trimChars
  rw [dropWhile_of_no_space l h,
      dropWhile_of_no_space l.reverse (fun c hc => h c (List.mem_reverse.mp hc))]
  exact List.reverse_reverse l

theorem startsWithChars_append_self (p rest : List Char) :
    startsWithChars (p ++ rest) p = true := by
  induction p with
  | nil => simp [startsWithChars]
  | cons c cs ih => simp [startsWithChars, ih]

theorem findPhraseIdxCore_zero (l : List Char)
    (h : startsWithChars l phraseRequirements = true) (hne : l ≠ []) :
    findPhraseIdxCore l = some 0 := by
  cases l with
  | nil => exact absurd rfl hne
  | cons c rest =>
    unfold findPhraseIdxCore
    simp [h]

theorem urlCexText_no_space : ∀ c ∈ urlCexText.data, jsIsSpace c = false := by
  intro c hc
  have hc' : c ∈ "requirements".data ++ List.replicate 3989 'a' := hc
  rcases List.mem_append.mp hc' with h | h
  · exact (by decide : ∀ c ∈ "requirements".data, jsIsSpace c = false) c h
  · rw [List.eq_of_mem_replicate h]; rfl

theorem urlCexText_lower : urlCexText.data.map lowerAscii = urlCexText.data := by
  have h : ∀ c ∈ urlCexText.data, lowerAscii c = id c := by
    intro c hc
    have hc' : c ∈ "requirements".data ++ List.replicate 3989 'a' := hc
    rcases List.mem_append.mp hc' with h | h
    · exact (by decide : ∀ c ∈ "requirements".data, lowerAscii c = c) c h
    · rw [List.eq_of_mem_replicate h]; rfl
  rw [List.map_congr_left h, List.map_id]

theorem urlCexText_data_length : urlCexText.data.length = 4001 := by
  rw [show urlCexText.data = "requirements".data ++ List.replicate 3989 'a' from rfl,
      List.length_append, List.length_replicate]
  decide

theorem collapsedTrimmed_urlCexText : collapsedTrimmed urlCexText = urlCexText := by
  unfold collapsedTrimmed
  rw [collapseRuns_of_no_space _ urlCexText_no_space false,
      trimChars_of_no_space _ urlCexText_no_space]

theorem findPhraseIndex_urlCexText : findPhraseIndex (collapsedTrimmed urlCexText) = some 0 := by
  rw [collapsedTrimmed_urlCexText]
  unfold findPhraseIndex
  rw [urlCexText_lower]
  refine findPhraseIdxCore_zero _ ?_ ?_
  · exact startsWithChars_append_self "requirements".data (List.replicate 3989 'a')
  · apply List.ne_nil_of_length_pos
    rw [urlCexText_data_length]
    norm_num

/-- C3 counterexample: a 4001-character extracted text whose keyword match
sits at index 0 is stored unchanged by `handleExtractFromUrl`, not windowed
to the 4000 characters starting at the match position as the claim states
(the code tests the truthiness of `match.index`, which fails at 0). -/
theorem extract_url_window_at_zero_cex :
    findPhraseIndex (collapsedTrimmed urlCexText) = some 0 ∧
    extractFromUrlText urlCexText = urlCexText ∧
    extractFromUrlText urlCexText ≠ substrWindow (collapsedTrimmed urlCexText) 0 4000 := by
  have hlenS : urlCexText.length = 4001 := urlCexText_data_length
  have hres : extractFromUrlText urlCexText = urlCexText := by
    unfold extractFromUrlText
    dsimp only
    rw [findPhraseIndex_urlCexText]
    simp only [ne_eq, not_true_eq_false, if_false, reduceIte]
    rw [collapsedTrimmed_urlCexText]
    unfold truncText
    rw [if_neg (by omega)]
  refine ⟨findPhraseIndex_urlCexText, hres, ?_⟩
  intro heq
  have hwin : (substrWindow (collapsedTrimmed urlCexText) 0 4000).length = 4000 := by
    rw [collapsedTrimmed_urlCexText]
    show (List.take 4000 (List.drop 0 urlCexText.data)).length = 4000
    rw [List.drop_zero, List.length_take, urlCexText_data_length]
    omega
  rw [hres] at heq
  rw [heq, hwin] at hlenS
  omega

theorem saveEffect_of_saved (rs : ResultsState) (ok : Bool) (pct : Nat) (i d : String)
    (h : rs.hasSavedRef = true) : saveEffect rs ok pct i d = rs := by
  unfold saveEffect
  rw [h]
  simp

theorem applyEffects_of_saved (evs : List (Bool × Nat × String × String)) (rs : ResultsState)
    (h : rs.hasSavedRef = true) : applyEffects rs evs = rs := by
  induction evs with
  | nil => rfl
  | cons e rest ih =>
    obtain ⟨ok, pct, i, d⟩ := e
    unfold applyEffects
    rw [saveEffect_of_saved rs ok pct i d h]
    exact ih

theorem saveToHistory_of_saved (s : DashboardState) (pct : Nat) (i d : String)
    (h : s.hasBeenSaved = true) : saveToHistory s pct i d = s := by
  unfold saveToHistory
  rw [h]
  simp

/-- C4: for a signed-in user with the save flag reset (as `handleAnalyze`
leaves it), the first evaluation of the save effect on a successful analysis
appends exactly one `HistoryRecord`; every further evaluation of the effect,
and every further call to `saveToHistory`, leaves the state (and hence the
history list) unchanged. -/
theorem history_saved_exactly_once (s : DashboardState) (pct : Nat) (i d : String)
    (hu : s.user = true) (hs : s.hasBeenSaved = false) :
    (saveEffect ⟨false, s⟩ true pct i d).dash.analysisHistory.length
        = s.analysisHistory.length + 1 ∧
    (∀ evs, applyEffects (saveEffect ⟨false, s⟩ true pct i d) evs
        = saveEffect ⟨false, s⟩ true pct i d) ∧
    (∀ pct2 i2 d2, saveToHistory (saveEffect ⟨false, s⟩ true pct i d).dash pct2 i2 d2
        = (saveEffect ⟨false, s⟩ true pct i d).dash) := by
  have hse : saveEffect ⟨false, s⟩ true pct i d
      = ⟨true, saveToHistory s pct i d⟩ := by
    unfold saveEffect
    simp
  have hguard : (!s.user || s.hasBeenSaved) = false := by rw [hu, hs]; rfl
  have hsaved : (saveToHistory s pct i d).hasBeenSaved = true := by
    unfold saveToHistory
    rw [hguard]
    simp
  have hlen : (saveToHistory s pct i d).analysisHistory.length
      = s.analysisHistory.length + 1 := by
    unfold saveToHistory
    rw [hguard]
    simp
  refine ⟨?_, ?_, ?_⟩
  · rw [hse]; exact hlen
  · intro evs
    exact applyEffects_of_saved evs _ (by rw [hse])
  · intro pct2 i2 d2
    apply saveToHistory_of_saved
    rw [hse]
    exact hsaved

theorem history_saved_exactly_once_witness :
    dashReady.user = true ∧ dashReady.hasBeenSaved = false ∧
    (saveEffect ⟨false, dashReady⟩ true 70 "1700000000001" "1/1/2025").dash.analysisHistory.length
        = dashReady.analysisHistory.length + 1 ∧
    applyEffects (saveEffect ⟨false, dashReady⟩ true 70 "1700000000001" "1/1/2025")
        [(true, 70, "1700000000002", "1/1/2025"), (false, 10, "x", "y")]
      = saveEffect ⟨false, dashReady⟩ true 70 "1700000000001" "1/1/2025" ∧
    saveToHistory (saveEffect ⟨false, dashReady⟩ true 70 "1700000000001" "1/1/2025").dash 33 "z" "w"
      = (saveEffect ⟨false, dashReady⟩ true 70 "1700000000001" "1/1/2025").dash := by
  have h := history_saved_exactly_once dashReady 70 "1700000000001" "1/1/2025" rfl rfl
  exact ⟨rfl, rfl, h.1, h.2.1 _, h.2.2 33 "z" "w"⟩

/-- C2 (code bug): in a fresh signed-in session whose history holds one
record with stored texts, clicking View runs `handleViewHistory` and the
re-run orchestration; on success the save effect fires (`handleViewHistory`
never arms `hasBeenSaved` and the remounted component has a fresh
`hasSaved` ref), so a second `HistoryRecord` is appended — the re-derivation
does re-trigger a save, contradicting the claimed invariant. -/
theorem handleViewHistory_triggers_duplicate_save :
    dashAfterLoad.analysisHistory.length = 1 ∧
    (handleViewHistory dashAfterLoad historyItemSample).hasBeenSaved = false ∧
    (saveEffect ⟨false, handleViewHistory dashAfterLoad historyItemSample⟩
        true 65 "1700000099999" "1/2/2025").dash.analysisHistory.length = 2 :=
  ⟨rfl, rfl, rfl⟩
